import Mathlib

/-!
# Blue Snowball USB audio driver: capture pipeline

A shallow embedding of `blue_snowball.c`.  Driver functions are pure functions
on the driver's own structures.  Every call the driver makes into the kernel
(USB core, ALSA core, allocator, log) is recorded, in program order, in a list
of `Call`s; the values those calls hand back to the driver (allocation results,
the return value of `usb_submit_urb`, ...) are extra arguments of the embedded
function.

Machine arithmetic: `buffer_pos` is a `size_t`, `actual_length` a `u32` and
`runtime->buffer_size` an `unsigned long`; the sum the completion handler forms
is taken modulo `2 ^ 64` (LP64 kernel).  `bytes_to_frames` works in `ssize_t`:
its product wraps at 64 bits and its quotient truncates toward zero.
-/

namespace BlueSnowball

/-! ## Constants of the source -/

def BLUE_SNOWBALL_SAMPLE_RATE : Nat := 44100
def BLUE_SNOWBALL_CHANNELS : Nat := 1
def BLUE_SNOWBALL_BITS_PER_SAMPLE : Nat := 16
def BLUE_SNOWBALL_FRAME_SIZE : Nat := 2
def BLUE_SNOWBALL_BUFFER_SIZE : Nat := BLUE_SNOWBALL_SAMPLE_RATE * BLUE_SNOWBALL_FRAME_SIZE

/-! ## Kernel constants used by the source -/

def ENOMEM : Int := 12
def ENODEV : Int := 19
def EINVAL : Int := 22

def SNDRV_PCM_TRIGGER_STOP : Int := 0
def SNDRV_PCM_TRIGGER_START : Int := 1

def SNDRV_PCM_FORMAT_S16_LE : Nat := 2
/-- The format bit `1 << SNDRV_PCM_FORMAT_S16_LE`. -/
def SNDRV_PCM_FMTBIT_S16_LE : Nat := 2 ^ SNDRV_PCM_FORMAT_S16_LE
/-- The rate bit `1 << 6`. -/
def SNDRV_PCM_RATE_44100 : Nat := 2 ^ 6

/-- One more than the largest `size_t` / `unsigned long` (64 bits). -/
def SIZE_T_MOD : Nat := 18446744073709551616

/-- One more than the largest `ssize_t` (`2 ^ 63`). -/
def SSIZE_T_LIMIT : Nat := 9223372036854775808

/-! ## Data model -/

/-- The two fields of a USB endpoint descriptor the driver looks at. -/
structure usb_endpoint_descriptor where
  bEndpointAddress : Nat
  bmAttributes : Nat
deriving DecidableEq

/-- The source's `struct blue_snowball_device`.  `interface` holds the endpoint
array of the interface's current alternate setting; the two endpoint pointers
are indices into that array (`none` is `NULL`).  The card, the PCM handle and
the mutex are not tracked. -/
structure blue_snowball_device where
  interface : List usb_endpoint_descriptor
  audio_in_endpoint : Option Nat
  audio_out_endpoint : Option Nat
  active : Int
deriving DecidableEq

/-- The part of `struct urb` that `usb_fill_bulk_urb` sets in `prepare`: the
endpoint the pipe is built from and the length of the transfer buffer. -/
structure urb where
  endpoint : Option Nat
  transfer_buffer_length : Nat
deriving DecidableEq

/-- The source's `struct blue_snowball_substream`.  `device` is the device the
session belongs to; `buffer` is `some n` for a live allocation of `n` bytes. -/
structure blue_snowball_substream where
  device : blue_snowball_device
  urb : Option urb
  buffer : Option Nat
  buffer_size : Nat
  buffer_pos : Nat
deriving DecidableEq

/-- The source's `struct snd_pcm_hardware` initialiser fields. -/
structure snd_pcm_hardware where
  formats : Nat
  rates : Nat
  rate_min : Nat
  rate_max : Nat
  channels_min : Nat
  channels_max : Nat
  buffer_bytes_max : Nat
  period_bytes_min : Nat
  period_bytes_max : Nat
  periods_min : Nat
  periods_max : Nat
deriving DecidableEq

/-- The fields of `struct snd_pcm_runtime` the driver reads or writes.
`buffer_size` and `period_size` are in frames (`snd_pcm_uframes_t`), `dma_bytes`
is the size in bytes of the area behind `dma_area`. -/
structure snd_pcm_runtime where
  hw : snd_pcm_hardware
  periods_integer : Bool
  dma_bytes : Nat
  buffer_size : Nat
  period_size : Nat
  frame_bits : Nat
deriving DecidableEq

/-- A fully chosen hardware-parameter request. -/
structure snd_pcm_hw_params where
  format : Nat
  channels : Nat
  rate : Nat
  buffer_bytes : Nat
  period_bytes : Nat
deriving DecidableEq

/-- Calls the driver makes into the kernel.  `memcpy off len` copies `len` bytes
to `dma_area + off`; `usb_submit_urb a` is a submission made while
`device->active` holds `a`; `kfree_buffer b` is `kfree(subs->buffer)` with the
pointer `b`. -/
inductive Call where
  | memcpy (off len : Nat)
  | snd_pcm_period_elapsed
  | usb_submit_urb (active : Int)
  | usb_kill_urb
  | usb_free_urb
  | kfree_buffer (buf : Option Nat)
  | kfree_subs
  | kfree_device
  | dev_err
deriving DecidableEq

def Call.is_submit : Call → Bool
  | .usb_submit_urb _ => true
  | _ => false

def Call.is_memcpy : Call → Bool
  | .memcpy _ _ => true
  | _ => false

def Call.is_period_elapsed : Call → Bool
  | .snd_pcm_period_elapsed => true
  | _ => false

/-! ## Endpoint discovery -/

/-- Kernel helper `usb_endpoint_is_bulk_in`: transfer type
`bmAttributes & 0x03` is `USB_ENDPOINT_XFER_BULK` (2) and the direction bit
`bEndpointAddress & 0x80` is set. -/
def usb_endpoint_is_bulk_in (e : usb_endpoint_descriptor) : Bool :=
  e.bmAttributes % 4 == 2 && e.bEndpointAddress / 128 % 2 == 1

/-- Kernel helper `usb_endpoint_is_bulk_out`: bulk transfer type and the
direction bit clear. -/
def usb_endpoint_is_bulk_out (e : usb_endpoint_descriptor) : Bool :=
  e.bmAttributes % 4 == 2 && e.bEndpointAddress / 128 % 2 == 0

/-- The loop `for (i = 0; i < bNumEndpoints; i++)` of `blue_snowball_probe`,
run on the endpoints still to visit, `i` being the index of the first. -/
def find_endpoints : List usb_endpoint_descriptor → Nat → blue_snowball_device →
    blue_snowball_device
  | [], _, device => device
  | endpoint :: rest, i, device =>
    let device :=
      if usb_endpoint_is_bulk_in endpoint then { device with audio_in_endpoint := some i }
      else device
    let device :=
      if usb_endpoint_is_bulk_out endpoint then { device with audio_out_endpoint := some i }
      else device
    find_endpoints rest (i + 1) device

/-- The source's `blue_snowball_probe`.  `kzalloc_ok` is whether the device
structure could be allocated, `create_card_ret` what `blue_snowball_create_card`
returns.  Yields the return value and the device stored as interface data. -/
def blue_snowball_probe (endpoints : List usb_endpoint_descriptor) (kzalloc_ok : Bool)
    (create_card_ret : Int) : Int × Option blue_snowball_device × List Call :=
  if !kzalloc_ok then (-ENOMEM, none, [])
  else
    let device : blue_snowball_device :=
      { interface := endpoints, audio_in_endpoint := none, audio_out_endpoint := none,
        active := 0 }
    let device := find_endpoints endpoints 0 device
    if device.audio_in_endpoint.isNone then (-ENODEV, none, [Call.dev_err, Call.kfree_device])
    else if create_card_ret < 0 then (create_card_ret, none, [Call.dev_err, Call.kfree_device])
    else (0, some device, [])

/-! ## Completion handler and pointer -/

/-- The source's `blue_snowball_urb_complete`.  `status` and `actual_length` are
the fields of the completed urb, `submit_ret` is what `usb_submit_urb` returns
if the handler resubmits. -/
def blue_snowball_urb_complete (runtime : snd_pcm_runtime) (subs : blue_snowball_substream)
    (status : Int) (actual_length : Nat) (submit_ret : Int) :
    blue_snowball_substream × List Call :=
  let copy : blue_snowball_substream × List Call :=
    if status = 0 then
      if (subs.buffer_pos + actual_length) % SIZE_T_MOD ≤ runtime.buffer_size then
        ({ subs with buffer_pos := (subs.buffer_pos + actual_length) % SIZE_T_MOD },
         [Call.memcpy subs.buffer_pos actual_length, Call.snd_pcm_period_elapsed])
      else (subs, [])
    else (subs, [])
  let resubmit : List Call :=
    if subs.device.active ≠ 0 then
      if submit_ret < 0 then [Call.usb_submit_urb subs.device.active, Call.dev_err]
      else [Call.usb_submit_urb subs.device.active]
    else []
  (copy.1, copy.2 ++ resubmit)

/-- The value of a 64-bit word read as an `ssize_t` (two's complement). -/
def to_ssize_t (n : Nat) : Int :=
  if n % SIZE_T_MOD < SSIZE_T_LIMIT then ((n % SIZE_T_MOD : Nat) : Int)
  else ((n % SIZE_T_MOD : Nat) : Int) - (SIZE_T_MOD : Int)

/-- Kernel helper `bytes_to_frames`: `size * 8 / runtime->frame_bits`, computed
in `ssize_t` (the product wraps at 64 bits, the division truncates toward zero)
and handed back as an unsigned frame count. -/
def bytes_to_frames (runtime : snd_pcm_runtime) (size : Nat) : Nat :=
  (Int.tdiv (to_ssize_t (size * 8)) (runtime.frame_bits : Int) % (SIZE_T_MOD : Int)).toNat

/-- The source's `blue_snowball_pcm_pointer`. -/
def blue_snowball_pcm_pointer (runtime : snd_pcm_runtime) (subs : blue_snowball_substream) :
    Nat :=
  bytes_to_frames runtime subs.buffer_pos

/-! ## PCM operations -/

/-- The source's `blue_snowball_pcm_hw`. -/
def blue_snowball_pcm_hw : snd_pcm_hardware :=
  { formats := SNDRV_PCM_FMTBIT_S16_LE,
    rates := SNDRV_PCM_RATE_44100,
    rate_min := 44100,
    rate_max := 44100,
    channels_min := 1,
    channels_max := 1,
    buffer_bytes_max := BLUE_SNOWBALL_BUFFER_SIZE,
    period_bytes_min := 1024,
    period_bytes_max := BLUE_SNOWBALL_BUFFER_SIZE / 4,
    periods_min := 2,
    periods_max := 4 }

/-- The source's `blue_snowball_pcm_open`.  `kzalloc_ok` is whether the session
could be allocated, `constraint_ret` what `snd_pcm_hw_constraint_integer`
returns; on success that call leaves the period count constrained to whole
numbers.  Yields the return value, the runtime and `runtime->private_data`
(`none` once the session has been freed again). -/
def blue_snowball_pcm_open (device : blue_snowball_device) (runtime : snd_pcm_runtime)
    (kzalloc_ok : Bool) (constraint_ret : Int) :
    Int × snd_pcm_runtime × Option blue_snowball_substream × List Call :=
  if !kzalloc_ok then (-ENOMEM, runtime, none, [])
  else
    let subs : blue_snowball_substream :=
      { device := device, urb := none, buffer := none, buffer_size := 0, buffer_pos := 0 }
    let runtime := { runtime with hw := blue_snowball_pcm_hw }
    if constraint_ret < 0 then (constraint_ret, runtime, none, [Call.kfree_subs])
    else (0, { runtime with periods_integer := true }, some subs, [])

/-- The source's `blue_snowball_pcm_close`, on `runtime->private_data`. -/
def blue_snowball_pcm_close (private_data : Option blue_snowball_substream) : Int × List Call :=
  match private_data with
  | some subs =>
    (0, (if subs.urb.isSome then [Call.usb_kill_urb, Call.usb_free_urb] else [])
        ++ [Call.kfree_buffer subs.buffer, Call.kfree_subs])
  | none => (0, [])

/-- The source's `blue_snowball_pcm_hw_params`: `snd_pcm_lib_malloc_pages` for
`params_buffer_bytes(hw_params)` bytes.  `malloc_ret` is what that call returns;
when it is not negative the area behind `dma_area` has the requested size. -/
def blue_snowball_pcm_hw_params (runtime : snd_pcm_runtime) (hw_params : snd_pcm_hw_params)
    (malloc_ret : Int) : Int × snd_pcm_runtime :=
  if malloc_ret < 0 then (malloc_ret, runtime)
  else (malloc_ret, { runtime with dma_bytes := hw_params.buffer_bytes })

/-- The source's `blue_snowball_pcm_prepare`.  `alloc_urb_ok` and `kmalloc_ok`
are whether `usb_alloc_urb` and `kmalloc` return a non-NULL pointer. -/
def blue_snowball_pcm_prepare (subs : blue_snowball_substream) (alloc_urb_ok kmalloc_ok : Bool) :
    Int × blue_snowball_substream × List Call :=
  if !alloc_urb_ok then (-ENOMEM, { subs with urb := none }, [])
  else
    let subs := { subs with urb := some { endpoint := none, transfer_buffer_length := 0 } }
    let subs := { subs with buffer_size := 1024 }
    if !kmalloc_ok then (-ENOMEM, { subs with buffer := none }, [Call.usb_free_urb])
    else
      let subs := { subs with buffer := some subs.buffer_size }
      let subs := { subs with
        urb := some { endpoint := subs.device.audio_in_endpoint,
                      transfer_buffer_length := subs.buffer_size } }
      (0, { subs with buffer_pos := 0 }, [])

/-- The source's `blue_snowball_pcm_trigger`.  `submit_ret` is what
`usb_submit_urb` returns if the command submits (0 on success, a negative errno
on failure). -/
def blue_snowball_pcm_trigger (subs : blue_snowball_substream) (cmd : Int) (submit_ret : Int) :
    Int × blue_snowball_substream × List Call :=
  if cmd = SNDRV_PCM_TRIGGER_START then
    if submit_ret < 0 then
      (submit_ret, { subs with device := { subs.device with active := 0 } },
       [Call.usb_submit_urb 1, Call.dev_err])
    else
      (submit_ret, { subs with device := { subs.device with active := 1 } },
       [Call.usb_submit_urb 1])
  else if cmd = SNDRV_PCM_TRIGGER_STOP then
    (0, { subs with device := { subs.device with active := 0 } }, [Call.usb_kill_urb])
  else (-EINVAL, subs, [])

/-! ## Streams of events on a prepared session -/

/-- What can happen to a session between `prepare` and `close`: a completion of
the transfer request, or a trigger command. -/
inductive StreamOp where
  | complete (status : Int) (actual_length : Nat) (submit_ret : Int)
  | trigger (cmd : Int) (submit_ret : Int)
deriving DecidableEq

/-- One event: the session after it and the kernel calls made so far. -/
def stream_step (runtime : snd_pcm_runtime) (st : blue_snowball_substream × List Call) :
    StreamOp → blue_snowball_substream × List Call
  | .complete status actual_length submit_ret =>
    let r := blue_snowball_urb_complete runtime st.1 status actual_length submit_ret
    (r.1, st.2 ++ r.2)
  | .trigger cmd submit_ret =>
    let r := blue_snowball_pcm_trigger st.1 cmd submit_ret
    (r.2.1, st.2 ++ r.2.2)

/-- A sequence of events, oldest first. -/
def stream_run (runtime : snd_pcm_runtime) (st : blue_snowball_substream × List Call)
    (ops : List StreamOp) : blue_snowball_substream × List Call :=
  ops.foldl (stream_step runtime) st

/-- Successful completions (status 0), one per entry: the entry gives
`actual_length` and the result of the resubmission. -/
def successful (cs : List (Nat × Int)) : List StreamOp :=
  cs.map (fun c => StreamOp.complete 0 c.1 c.2)

/-- Number of period-elapsed signals in a list of kernel calls. -/
def signals (calls : List Call) : Nat :=
  calls.countP Call.is_period_elapsed

/-- Number of submissions in a list of kernel calls. -/
def submits (calls : List Call) : Nat :=
  calls.countP Call.is_submit

/-- Number of copies into the capture buffer in a list of kernel calls. -/
def copies (calls : List Call) : Nat :=
  calls.countP Call.is_memcpy

/-! ## Hardware parameters

The driver declares `blue_snowball_pcm_hw` and the whole-number constraint on
the period count, and its `hw_params` allocates the buffer.  The frame geometry
of the runtime (`frame_bits`, `buffer_size`, `period_size`) is filled in by the
audio core from the request. -/

/-- Kernel helper `snd_pcm_format_physical_width` for the linear formats
0 .. 13 (8-bit, 16-bit, then 24- and 32-bit samples in 32-bit containers). -/
def snd_pcm_format_physical_width (format : Nat) : Nat :=
  if format ≤ 1 then 8 else if format ≤ 5 then 16 else 32

/-- Not driver code: a predicate on a request, saying that it lies within what
a hardware description declares: format bit, rate, channels, buffer bytes,
period bytes, a period of whole frames, and the period count `buffer / period`
within its limits (a whole number when `periods_integer` is set).  It decides
the outcome of no operation; it only records that the requests of the examples
are ones `blue_snowball_pcm_hw` declares. -/
def hw_params_supported (hw : snd_pcm_hardware) (periods_integer : Bool)
    (p : snd_pcm_hw_params) : Bool :=
  hw.formats / 2 ^ p.format % 2 == 1 &&
  decide (hw.rate_min ≤ p.rate ∧ p.rate ≤ hw.rate_max) &&
  decide (hw.channels_min ≤ p.channels ∧ p.channels ≤ hw.channels_max) &&
  decide (p.buffer_bytes ≤ hw.buffer_bytes_max) &&
  decide (hw.period_bytes_min ≤ p.period_bytes ∧ p.period_bytes ≤ hw.period_bytes_max) &&
  decide (p.period_bytes * 8 % (snd_pcm_format_physical_width p.format * p.channels) = 0) &&
  decide (hw.periods_min * p.period_bytes ≤ p.buffer_bytes ∧
          p.buffer_bytes ≤ hw.periods_max * p.period_bytes) &&
  (!periods_integer || p.buffer_bytes % p.period_bytes == 0)

/-- The driver's `hw_params` followed by what the core stores in the runtime
when the driver did not fail: frame width, buffer and period size in frames. -/
def hw_params_commit (runtime : snd_pcm_runtime) (p : snd_pcm_hw_params) (malloc_ret : Int) :
    Int × snd_pcm_runtime :=
  let r := blue_snowball_pcm_hw_params runtime p malloc_ret
  if r.1 < 0 then (r.1, runtime)
  else
    let frame_bits := snd_pcm_format_physical_width p.format * p.channels
    (0, { r.2 with frame_bits := frame_bits,
                   buffer_size := p.buffer_bytes * 8 / frame_bits,
                   period_size := p.period_bytes * 8 / frame_bits })

/-- The runtime of a freshly created substream, before `open`. -/
def runtime_init : snd_pcm_runtime :=
  { hw := { formats := 0, rates := 0, rate_min := 0, rate_max := 0, channels_min := 0,
            channels_max := 0, buffer_bytes_max := 0, period_bytes_min := 0,
            period_bytes_max := 0, periods_min := 0, periods_max := 0 },
    periods_integer := false, dma_bytes := 0, buffer_size := 0, period_size := 0,
    frame_bits := 0 }

/-! ## End-to-end capture session -/

/-- What an end-to-end capture session reports. -/
structure capture_report where
  rets : List Int
  pointer : Nat
  signals : Nat
  stop_calls : List Call
  close_calls : List Call
deriving DecidableEq

/-- The driver operations of one capture session, in order: `open`, `hw_params`
for the request `p` (with the frame geometry the core derives from it), `prepare`,
`trigger(START)`, `k` successful completions of `len` bytes each, `pointer`,
`trigger(STOP)`, `close`.  Every allocation and every submission succeeds.
`rets` lists the return values of open, hw_params, prepare, start, stop and
close. -/
def capture_session (device : blue_snowball_device) (p : snd_pcm_hw_params) (len k : Nat) :
    Option capture_report :=
  match blue_snowball_pcm_open device runtime_init true 0 with
  | (r_open, runtime, some subs, _) =>
    let hp := hw_params_commit runtime p 0
    let pr := blue_snowball_pcm_prepare subs true true
    let st := blue_snowball_pcm_trigger pr.2.1 SNDRV_PCM_TRIGGER_START 0
    let run := stream_run hp.2 (st.2.1, []) (successful (List.replicate k (len, 0)))
    let sp := blue_snowball_pcm_trigger run.1 SNDRV_PCM_TRIGGER_STOP 0
    let cl := blue_snowball_pcm_close (some sp.2.1)
    some { rets := [r_open, hp.1, pr.1, st.1, sp.1, cl.1],
           pointer := blue_snowball_pcm_pointer hp.2 run.1,
           signals := signals run.2,
           stop_calls := sp.2.2,
           close_calls := cl.2 }
  | _ => none

/-- The example device: one bulk IN endpoint at address 0x81. -/
def example_device : blue_snowball_device :=
  { interface := [{ bEndpointAddress := 129, bmAttributes := 2 }],
    audio_in_endpoint := some 0, audio_out_endpoint := none, active := 0 }

/-- The request mono / 16-bit little-endian / 44100 Hz with the given buffer and
period sizes in bytes. -/
def mono_s16_44100 (buffer_bytes period_bytes : Nat) : snd_pcm_hw_params :=
  { format := SNDRV_PCM_FORMAT_S16_LE, channels := BLUE_SNOWBALL_CHANNELS,
    rate := BLUE_SNOWBALL_SAMPLE_RATE, buffer_bytes := buffer_bytes,
    period_bytes := period_bytes }

/-- The session `open` creates for a device (allocation succeeded). -/
def opened (device : blue_snowball_device) : blue_snowball_substream :=
  { device := device, urb := none, buffer := none, buffer_size := 0, buffer_pos := 0 }

/-- A session after a `prepare` in which both allocations succeeded. -/
def prepared (subs : blue_snowball_substream) : blue_snowball_substream :=
  (blue_snowball_pcm_prepare subs true true).2.1

/-- Kernel helper `frames_to_bytes`: `size * runtime->frame_bits / 8`. -/
def frames_to_bytes (runtime : snd_pcm_runtime) (size : Nat) : Nat :=
  size * runtime.frame_bits / 8

/-- The length a stream event delivers: `actual_length` of a completion. -/
def StreamOp.actual_length : StreamOp → Nat
  | .complete _ actual_length _ => actual_length
  | .trigger _ _ => 0

/-- One more than the largest `u32`, the type of `urb->actual_length`. -/
def U32_MOD : Nat := 4294967296

/-- Spec-side count of period boundaries crossed by a write of `len` bytes at
cursor `pos`: the multiples of `period` in `(pos, pos + len]`. -/
def period_boundaries_crossed (period pos len : Nat) : Nat :=
  (pos + len) / period - pos / period

/-- Spec-side ring position: cumulative bytes modulo the capacity. -/
def ring_position (capacity total : Nat) : Nat :=
  total % capacity

/-- The index the spec's discovery rule selects: the first bulk IN endpoint. -/
def first_bulk_in (endpoints : List usb_endpoint_descriptor) : Option Nat :=
  endpoints.findIdx? usb_endpoint_is_bulk_in

/-- The runtime after `open` on the example device. -/
def runtime_opened : snd_pcm_runtime :=
  (blue_snowball_pcm_open example_device runtime_init true 0).2.1

/-- The opened runtime configured for mono / 16-bit / 44100 Hz with the given
buffer and period sizes in bytes. -/
def runtime_configured (buffer_bytes period_bytes : Nat) : snd_pcm_runtime :=
  (hw_params_commit runtime_opened (mono_s16_44100 buffer_bytes period_bytes) 0).2

/-- Index of the last bulk IN endpoint of a list, if it has one. -/
def last_bulk_in : List usb_endpoint_descriptor → Option Nat
  | [] => none
  | e :: rest =>
    match last_bulk_in rest with
    | some k => some (k + 1)
    | none => if usb_endpoint_is_bulk_in e then some 0 else none

end BlueSnowball

namespace BlueSnowball

/-! ## Byte to frame conversion -/

theorem bytes_to_frames_no_overflow (runtime : snd_pcm_runtime) (size : Nat)
    (h : size * 8 < SSIZE_T_LIMIT) :
    bytes_to_frames runtime size = size * 8 / runtime.frame_bits := by
  have hlimit : SSIZE_T_LIMIT < SIZE_T_MOD := by decide
  have hmod : size * 8 % SIZE_T_MOD = size * 8 := Nat.mod_eq_of_lt (by omega)
  have hq : size * 8 / runtime.frame_bits < SIZE_T_MOD :=
    lt_of_le_of_lt (Nat.div_le_self _ _) (by omega)
  unfold bytes_to_frames to_ssize_t
  rw [hmod, if_pos h, ← Int.ofNat_tdiv, ← Int.ofNat_emod, Nat.mod_eq_of_lt hq]
  exact Int.toNat_ofNat _

/-! ## Completion handler: single completion -/

theorem urb_complete_device (runtime : snd_pcm_runtime) (subs : blue_snowball_substream)
    (status : Int) (len : Nat) (r : Int) :
    (blue_snowball_urb_complete runtime subs status len r).1.device = subs.device ∧
    (blue_snowball_urb_complete runtime subs status len r).1.urb = subs.urb ∧
    (blue_snowball_urb_complete runtime subs status len r).1.buffer = subs.buffer := by
  unfold blue_snowball_urb_complete
  by_cases hs : status = 0 <;>
    by_cases hf : (subs.buffer_pos + len) % SIZE_T_MOD ≤ runtime.buffer_size <;>
    simp [hs, hf]

theorem urb_complete_submits (runtime : snd_pcm_runtime) (subs : blue_snowball_substream)
    (status : Int) (len : Nat) (r : Int) :
    submits (blue_snowball_urb_complete runtime subs status len r).2 =
      if subs.device.active = 0 then 0 else 1 := by
  unfold blue_snowball_urb_complete submits
  by_cases hs : status = 0 <;>
    by_cases hf : (subs.buffer_pos + len) % SIZE_T_MOD ≤ runtime.buffer_size <;>
    by_cases ha : subs.device.active = 0 <;>
    by_cases hr : r < 0 <;>
    simp [hs, hf, ha, hr, Call.is_submit, List.countP_cons]

/-- C3: for every completion (any status, any length, payload copied or not) the
handler issues exactly one submission when the device's activity flag is
non-zero and none when it is zero, and leaves the request itself in place. -/
theorem resubmit_iff_active (runtime : snd_pcm_runtime) (subs : blue_snowball_substream)
    (status : Int) (actual_length : Nat) (submit_ret : Int) :
    ((∃ a, Call.usb_submit_urb a ∈
        (blue_snowball_urb_complete runtime subs status actual_length submit_ret).2) ↔
      subs.device.active ≠ 0) ∧
    submits (blue_snowball_urb_complete runtime subs status actual_length submit_ret).2 =
      (if subs.device.active = 0 then 0 else 1) ∧
    (blue_snowball_urb_complete runtime subs status actual_length submit_ret).1.urb = subs.urb := by
  refine ⟨?_, urb_complete_submits runtime subs status actual_length submit_ret,
    (urb_complete_device runtime subs status actual_length submit_ret).2.1⟩
  unfold blue_snowball_urb_complete
  by_cases hs : status = 0 <;>
    by_cases hf : (subs.buffer_pos + actual_length) % SIZE_T_MOD ≤ runtime.buffer_size <;>
    by_cases ha : subs.device.active = 0 <;>
    by_cases hr : submit_ret < 0 <;>
    simp [hs, hf, ha, hr]

/-- C9: a completion with a non-zero status copies nothing, leaves the session
(write cursor included, hence pointer()) unchanged, delivers no period-elapsed
signal, and still resubmits exactly when the activity flag is non-zero. -/
theorem failed_completion_is_swallowed (runtime : snd_pcm_runtime)
    (subs : blue_snowball_substream) (status : Int) (actual_length : Nat) (submit_ret : Int)
    (hstatus : status ≠ 0) :
    (blue_snowball_urb_complete runtime subs status actual_length submit_ret).1 = subs ∧
    blue_snowball_pcm_pointer runtime
        (blue_snowball_urb_complete runtime subs status actual_length submit_ret).1 =
      blue_snowball_pcm_pointer runtime subs ∧
    copies (blue_snowball_urb_complete runtime subs status actual_length submit_ret).2 = 0 ∧
    signals (blue_snowball_urb_complete runtime subs status actual_length submit_ret).2 = 0 ∧
    submits (blue_snowball_urb_complete runtime subs status actual_length submit_ret).2 =
      (if subs.device.active = 0 then 0 else 1) := by
  refine ⟨?_, ?_, ?_, ?_, urb_complete_submits runtime subs status actual_length submit_ret⟩
  all_goals
    unfold blue_snowball_urb_complete
    by_cases ha : subs.device.active = 0 <;>
      by_cases hr : submit_ret < 0 <;>
      simp [hstatus, ha, hr, copies, signals, Call.is_memcpy, Call.is_period_elapsed,
        List.countP_cons]

/-- Witness for C9: a completion with status -71 (a protocol error) of 1024
bytes on a running session whose cursor stands at 2048. -/
theorem failed_completion_is_swallowed_witness :
    (blue_snowball_urb_complete (hw_params_commit runtime_init (mono_s16_44100 88200 22050) 0).2
        { prepared (opened { example_device with active := 1 }) with buffer_pos := 2048 }
        (-71) 1024 0).1 =
      { prepared (opened { example_device with active := 1 }) with buffer_pos := 2048 } ∧
    submits (blue_snowball_urb_complete
        (hw_params_commit runtime_init (mono_s16_44100 88200 22050) 0).2
        { prepared (opened { example_device with active := 1 }) with buffer_pos := 2048 }
        (-71) 1024 0).2 = 1 := by
  have h := failed_completion_is_swallowed
    (hw_params_commit runtime_init (mono_s16_44100 88200 22050) 0).2
    { prepared (opened { example_device with active := 1 }) with buffer_pos := 2048 }
    (-71) 1024 0 (by decide)
  exact ⟨h.1, by rw [h.2.2.2.2]; rfl⟩

/-! ## Trigger -/

/-- C5: start() on a prepared session submits the request with the activity
flag already set to 1; it returns what the submission returned; after a failed
submission (negative) the flag is 0 on return, after a successful one (0) the
flag is 1; the write cursor, the request and the scratch buffer are untouched
either way. -/
theorem start_on_prepared (subs : blue_snowball_substream) (submit_ret : Int) :
    (blue_snowball_pcm_trigger (prepared subs) SNDRV_PCM_TRIGGER_START submit_ret).2.2.head? =
      some (Call.usb_submit_urb 1) ∧
    submits (blue_snowball_pcm_trigger (prepared subs) SNDRV_PCM_TRIGGER_START submit_ret).2.2
      = 1 ∧
    (submit_ret < 0 →
      (blue_snowball_pcm_trigger (prepared subs) SNDRV_PCM_TRIGGER_START submit_ret).1
        = submit_ret ∧
      (blue_snowball_pcm_trigger (prepared subs) SNDRV_PCM_TRIGGER_START submit_ret).1 < 0 ∧
      (blue_snowball_pcm_trigger (prepared subs) SNDRV_PCM_TRIGGER_START submit_ret).2.1
        = { prepared subs with device := { (prepared subs).device with active := 0 } }) ∧
    (submit_ret = 0 →
      (blue_snowball_pcm_trigger (prepared subs) SNDRV_PCM_TRIGGER_START submit_ret).1 = 0 ∧
      (blue_snowball_pcm_trigger (prepared subs) SNDRV_PCM_TRIGGER_START submit_ret).2.1
        = { prepared subs with device := { (prepared subs).device with active := 1 } }) ∧
    (blue_snowball_pcm_trigger (prepared subs) SNDRV_PCM_TRIGGER_START submit_ret).2.1.buffer_pos
      = (prepared subs).buffer_pos ∧
    (blue_snowball_pcm_trigger (prepared subs) SNDRV_PCM_TRIGGER_START submit_ret).2.1.urb
      = (prepared subs).urb ∧
    (blue_snowball_pcm_trigger (prepared subs) SNDRV_PCM_TRIGGER_START submit_ret).2.1.buffer
      = (prepared subs).buffer := by
  unfold blue_snowball_pcm_trigger submits
  by_cases hr : submit_ret < 0
  · have hne : submit_ret ≠ 0 := by omega
    simp [hr, hne, Call.is_submit, List.countP_cons]
  · simp [hr, Call.is_submit, List.countP_cons]

/-- C4 (amended): trigger() checks the command code only, never the session
state.  A command that is neither start nor stop fails with -EINVAL and changes
nothing (flag, cursor and request unchanged, nothing submitted or cancelled);
stop() on any session returns 0, clears the flag and cancels the request. -/
theorem trigger_rejects_unknown_command_only (subs : blue_snowball_substream) (cmd : Int)
    (submit_ret : Int) (hstart : cmd ≠ SNDRV_PCM_TRIGGER_START)
    (hstop : cmd ≠ SNDRV_PCM_TRIGGER_STOP) :
    blue_snowball_pcm_trigger subs cmd submit_ret = (-EINVAL, subs, []) ∧
    blue_snowball_pcm_trigger subs SNDRV_PCM_TRIGGER_STOP submit_ret =
      (0, { subs with device := { subs.device with active := 0 } }, [Call.usb_kill_urb]) := by
  unfold blue_snowball_pcm_trigger
  constructor
  · simp [hstart, hstop]
  · simp [SNDRV_PCM_TRIGGER_STOP, SNDRV_PCM_TRIGGER_START]

/-- Witness for C4 (amended): the command code 3 (pause push) on a prepared
session. -/
theorem trigger_rejects_unknown_command_only_witness :
    blue_snowball_pcm_trigger (prepared (opened example_device)) 3 0 =
      (-EINVAL, prepared (opened example_device), []) :=
  (trigger_rejects_unknown_command_only (prepared (opened example_device)) 3 0
    (by decide) (by decide)).1

/-- Counterexample to C4: stop() on a session that was prepared and never
started is not refused: it returns 0 and cancels the request; and start() on a
session that is already running is not refused either: when the second
submission fails it clears the activity flag of the running stream. -/
theorem stop_on_prepared_succeeds :
    (blue_snowball_pcm_trigger (prepared (opened example_device)) SNDRV_PCM_TRIGGER_STOP 0).1
      = 0 ∧
    (blue_snowball_pcm_trigger (prepared (opened example_device)) SNDRV_PCM_TRIGGER_STOP 0).2.2
      = [Call.usb_kill_urb] ∧
    (blue_snowball_pcm_trigger
        (blue_snowball_pcm_trigger (prepared (opened example_device))
          SNDRV_PCM_TRIGGER_START 0).2.1
        SNDRV_PCM_TRIGGER_START (-16)).2.1.device.active = 0 ∧
    (blue_snowball_pcm_trigger (prepared (opened example_device))
      SNDRV_PCM_TRIGGER_START 0).2.1.device.active = 1 := by
  decide

/-! ## Endpoint discovery -/

theorem find_endpoints_audio_in (eps : List usb_endpoint_descriptor) (i : Nat)
    (device : blue_snowball_device) :
    (find_endpoints eps i device).audio_in_endpoint =
      match last_bulk_in eps with
      | some k => some (i + k)
      | none => device.audio_in_endpoint := by
  induction eps generalizing i device with
  | nil => simp [find_endpoints, last_bulk_in]
  | cons e rest ih =>
    simp only [find_endpoints, last_bulk_in]
    rw [ih]
    cases hl : last_bulk_in rest with
    | some k => simp; omega
    | none =>
      by_cases hin : usb_endpoint_is_bulk_in e = true <;>
        by_cases hout : usb_endpoint_is_bulk_out e = true <;>
        simp [hin, hout]

theorem last_bulk_in_none (eps : List usb_endpoint_descriptor) (h : last_bulk_in eps = none) :
    ∀ (j : Nat) (e : usb_endpoint_descriptor), eps[j]? = some e →
      usb_endpoint_is_bulk_in e = false := by
  induction eps with
  | nil => intro j e hj; simp at hj
  | cons e0 rest ih =>
    intro j e hj
    simp only [last_bulk_in] at h
    cases hl : last_bulk_in rest with
    | some k => simp [hl] at h
    | none =>
      simp only [hl] at h
      cases j with
      | zero =>
        simp at hj
        subst hj
        by_cases hin : usb_endpoint_is_bulk_in e0 = true
        · simp [hin] at h
        · simpa using hin
      | succ j =>
        simp at hj
        exact ih hl j e hj

theorem last_bulk_in_some (eps : List usb_endpoint_descriptor) (k : Nat)
    (h : last_bulk_in eps = some k) :
    (∃ e, eps[k]? = some e ∧ usb_endpoint_is_bulk_in e = true) ∧
    ∀ j e, k < j → eps[j]? = some e → usb_endpoint_is_bulk_in e = false := by
  induction eps generalizing k with
  | nil => simp [last_bulk_in] at h
  | cons e0 rest ih =>
    simp only [last_bulk_in] at h
    cases hl : last_bulk_in rest with
    | some k0 =>
      simp only [hl, Option.some.injEq] at h
      subst h
      obtain ⟨⟨e, he, hb⟩, hlast⟩ := ih k0 hl
      refine ⟨⟨e, by simpa using he, hb⟩, ?_⟩
      intro j e1 hj he1
      cases j with
      | zero => omega
      | succ j =>
        simp at he1
        exact hlast j e1 (by omega) he1
    | none =>
      simp only [hl] at h
      by_cases hin : usb_endpoint_is_bulk_in e0 = true
      · simp only [hin, if_true, Option.some.injEq] at h
        subst h
        refine ⟨⟨e0, by simp, hin⟩, ?_⟩
        intro j e1 hj he1
        cases j with
        | zero => omega
        | succ j =>
          simp at he1
          exact last_bulk_in_none rest hl j e1 he1
      · simp [hin] at h

theorem last_bulk_in_iff (eps : List usb_endpoint_descriptor) (k : Nat) :
    last_bulk_in eps = some k ↔
      (∃ e, eps[k]? = some e ∧ usb_endpoint_is_bulk_in e = true) ∧
      ∀ j e, k < j → eps[j]? = some e → usb_endpoint_is_bulk_in e = false := by
  constructor
  · exact last_bulk_in_some eps k
  · rintro ⟨⟨e, he, hb⟩, hlast⟩
    cases hl : last_bulk_in eps with
    | none =>
      have := last_bulk_in_none eps hl k e he
      simp [hb] at this
    | some k0 =>
      obtain ⟨⟨e0, he0, hb0⟩, hlast0⟩ := last_bulk_in_some eps k0 hl
      rcases Nat.lt_trichotomy k0 k with hlt | heq | hgt
      · have := hlast0 k e hlt he
        simp [hb] at this
      · rw [heq]
      · have := hlast k0 e0 hgt he0
        simp [hb0] at this

/-- C6 (amended): for every list of endpoint descriptors, the discovery loop of
attach selects index `i` exactly when descriptor `i` is a bulk IN endpoint and
no later descriptor is one: the last bulk IN endpoint of the list.  That index
is the one in the device handle attach stores, for every outcome of the
allocation and of the card creation (a handle is stored when both succeed). -/
theorem probe_selects_last_bulk_in (endpoints : List usb_endpoint_descriptor) (i : Nat)
    (kzalloc_ok : Bool) (create_card_ret : Int) :
    ((find_endpoints endpoints 0
        { interface := endpoints, audio_in_endpoint := none, audio_out_endpoint := none,
          active := 0 }).audio_in_endpoint = some i ↔
      ((∃ e, endpoints[i]? = some e ∧ usb_endpoint_is_bulk_in e = true) ∧
        ∀ j e, i < j → endpoints[j]? = some e → usb_endpoint_is_bulk_in e = false)) ∧
    ((∃ device, (blue_snowball_probe endpoints kzalloc_ok create_card_ret).2.1 = some device ∧
        device.audio_in_endpoint = some i) ↔
      (kzalloc_ok = true ∧ 0 ≤ create_card_ret ∧
        (∃ e, endpoints[i]? = some e ∧ usb_endpoint_is_bulk_in e = true) ∧
        ∀ j e, i < j → endpoints[j]? = some e → usb_endpoint_is_bulk_in e = false)) := by
  have hfind := find_endpoints_audio_in endpoints 0
    { interface := endpoints, audio_in_endpoint := none, audio_out_endpoint := none,
      active := 0 }
  rw [← last_bulk_in_iff]
  constructor
  · rw [hfind]
    cases hl : last_bulk_in endpoints with
    | none => simp
    | some k => simp
  · unfold blue_snowball_probe
    cases kzalloc_ok with
    | false => simp
    | true =>
      by_cases hret : create_card_ret < 0
      · cases hl : last_bulk_in endpoints with
        | none =>
          simp only [hl] at hfind
          simp [hfind, hret]
        | some k =>
          simp only [hl] at hfind
          simp [hfind, hret]
      · have hge : 0 ≤ create_card_ret := by omega
        cases hl : last_bulk_in endpoints with
        | none =>
          simp only [hl] at hfind
          simp [hfind, hret]
        | some k =>
          simp only [hl] at hfind
          simp [hfind, hret, hge]

/-- Counterexample to C6: with two bulk IN endpoints, 0x81 at index 0 and 0x82
at index 1, attach stores index 1, while the first bulk IN endpoint is the one at
index 0. -/
theorem probe_takes_second_of_two_bulk_in :
    (blue_snowball_probe
        [{ bEndpointAddress := 129, bmAttributes := 2 },
         { bEndpointAddress := 130, bmAttributes := 2 }] true 0).2.1.map
      (fun device => device.audio_in_endpoint) = some (some 1) ∧
    first_bulk_in
        [{ bEndpointAddress := 129, bmAttributes := 2 },
         { bEndpointAddress := 130, bmAttributes := 2 }] = some 0 := by
  decide

/-! ## Streams of completions -/

theorem urb_complete_copied (runtime : snd_pcm_runtime) (subs : blue_snowball_substream)
    (len : Nat) (r : Int) (hbs : runtime.buffer_size < SIZE_T_MOD)
    (hfit : subs.buffer_pos + len ≤ runtime.buffer_size) :
    (blue_snowball_urb_complete runtime subs 0 len r).1.buffer_pos = subs.buffer_pos + len ∧
    signals (blue_snowball_urb_complete runtime subs 0 len r).2 = 1 ∧
    copies (blue_snowball_urb_complete runtime subs 0 len r).2 = 1 := by
  have hmod : (subs.buffer_pos + len) % SIZE_T_MOD = subs.buffer_pos + len :=
    Nat.mod_eq_of_lt (by omega)
  unfold blue_snowball_urb_complete signals copies
  by_cases ha : subs.device.active = 0 <;>
    by_cases hr : r < 0 <;>
    simp [hmod, hfit, ha, hr, Call.is_period_elapsed, Call.is_memcpy, List.countP_cons]

theorem urb_complete_signals (runtime : snd_pcm_runtime) (subs : blue_snowball_substream)
    (status : Int) (len : Nat) (r : Int) :
    signals (blue_snowball_urb_complete runtime subs status len r).2 =
      if status = 0 ∧ (subs.buffer_pos + len) % SIZE_T_MOD ≤ runtime.buffer_size then 1
      else 0 := by
  unfold blue_snowball_urb_complete signals
  by_cases hs : status = 0 <;>
    by_cases hf : (subs.buffer_pos + len) % SIZE_T_MOD ≤ runtime.buffer_size <;>
    by_cases ha : subs.device.active = 0 <;>
    by_cases hr : r < 0 <;>
    simp [hs, hf, ha, hr, Call.is_period_elapsed, List.countP_cons]

theorem urb_complete_dropped (runtime : snd_pcm_runtime) (subs : blue_snowball_substream)
    (len : Nat) (r : Int) (hno : subs.buffer_pos + len < SIZE_T_MOD)
    (hover : runtime.buffer_size < subs.buffer_pos + len) :
    (blue_snowball_urb_complete runtime subs 0 len r).1 = subs := by
  have hmod : (subs.buffer_pos + len) % SIZE_T_MOD = subs.buffer_pos + len :=
    Nat.mod_eq_of_lt hno
  have hnot : ¬ subs.buffer_pos + len ≤ runtime.buffer_size := by omega
  unfold blue_snowball_urb_complete
  simp [hmod, hnot]

theorem signals_append (a b : List Call) : signals (a ++ b) = signals a + signals b := by
  simp [signals, List.countP_append]

theorem stream_run_successful (runtime : snd_pcm_runtime) (cs : List (Nat × Int))
    (st : blue_snowball_substream × List Call) (hbs : runtime.buffer_size < SIZE_T_MOD)
    (hfit : st.1.buffer_pos + (cs.map Prod.fst).sum ≤ runtime.buffer_size) :
    (stream_run runtime st (successful cs)).1.buffer_pos =
      st.1.buffer_pos + (cs.map Prod.fst).sum ∧
    signals (stream_run runtime st (successful cs)).2 = signals st.2 + cs.length := by
  induction cs generalizing st with
  | nil => simp [stream_run, successful]
  | cons c rest ih =>
    simp only [List.map_cons, List.sum_cons] at hfit
    have hc := urb_complete_copied runtime st.1 c.1 c.2 hbs (by omega)
    have hstep : stream_run runtime st (successful (c :: rest)) =
        stream_run runtime (stream_step runtime st (StreamOp.complete 0 c.1 c.2))
          (successful rest) := by
      simp [stream_run, successful]
    rw [hstep]
    have ih1 := ih (stream_step runtime st (StreamOp.complete 0 c.1 c.2))
      (by simp only [stream_step]; rw [hc.1]; omega)
    simp only [stream_step] at ih1 ⊢
    rw [ih1.1, ih1.2, hc.1, signals_append, hc.2.1]
    simp only [List.map_cons, List.sum_cons, List.length_cons]
    omega

theorem prepared_buffer_pos (subs : blue_snowball_substream) : (prepared subs).buffer_pos = 0 := by
  simp [prepared, blue_snowball_pcm_prepare]

theorem sum_take_le (l : List Nat) (n : Nat) : (l.take n).sum ≤ l.sum := by
  have h : ((l.take n) ++ (l.drop n)).sum = l.sum := by rw [List.take_append_drop]
  rw [List.sum_append] at h
  omega

/-- C1 (amended): for every bound `runtime->buffer_size` below 2^60 (so that
the byte count times 8 fits an `ssize_t`) and every sequence of successful
completions after prepare() whose cumulative length stays within that bound,
pointer() after each completion equals the cumulative bytes delivered so far, in
frames (bytes / 2).  The cursor does not wrap: with the cursor within the bound,
a successful completion whose 32-bit length would take it past the bound leaves
the session, and so pointer(), unchanged. -/
theorem pointer_counts_delivered_bytes (runtime : snd_pcm_runtime)
    (subs : blue_snowball_substream) (cs : List (Nat × Int)) (n : Nat)
    (hframe : runtime.frame_bits = 16) (hbs : runtime.buffer_size * 8 < SSIZE_T_LIMIT)
    (hfit : (cs.map Prod.fst).sum ≤ runtime.buffer_size) :
    blue_snowball_pcm_pointer runtime
        (stream_run runtime (prepared subs, []) (successful (cs.take n))).1 =
      ((cs.take n).map Prod.fst).sum / 2 ∧
    ∀ (s : blue_snowball_substream) (len : Nat) (r : Int),
      s.buffer_pos ≤ runtime.buffer_size → len < U32_MOD →
      runtime.buffer_size < s.buffer_pos + len →
      (blue_snowball_urb_complete runtime s 0 len r).1 = s := by
  have hlimit : SSIZE_T_LIMIT = 9223372036854775808 := rfl
  have hsize : SIZE_T_MOD = 18446744073709551616 := rfl
  have hu32 : U32_MOD = 4294967296 := rfl
  constructor
  · have hle : ((cs.take n).map Prod.fst).sum ≤ (cs.map Prod.fst).sum := by
      rw [List.map_take]
      exact sum_take_le _ n
    have h := (stream_run_successful runtime (cs.take n) (prepared subs, []) (by omega)
      (by simp only [prepared_buffer_pos]; omega)).1
    simp only [prepared_buffer_pos] at h
    unfold blue_snowball_pcm_pointer
    rw [h, bytes_to_frames_no_overflow runtime _ (by omega), hframe]
    omega
  · intro s len r hpos hlen hover
    exact urb_complete_dropped runtime s len r (by omega) hover

/-- Witness for C1 (amended): three completions of 1024 bytes into an 88200-byte
buffer (bound 44100); after the second, pointer() is 1024 frames. -/
theorem pointer_counts_delivered_bytes_witness :
    blue_snowball_pcm_pointer (runtime_configured 88200 22050)
        (stream_run (runtime_configured 88200 22050) (prepared (opened example_device), [])
          (successful ([(1024, 0), (1024, 0), (1024, 0)].take 2))).1 =
      (([(1024, 0), (1024, 0), (1024, 0)].take 2).map Prod.fst).sum / 2 :=
  (pointer_counts_delivered_bytes (runtime_configured 88200 22050) (opened example_device)
    [(1024, 0), (1024, 0), (1024, 0)] 2 (by decide) (by decide) (by decide)).1

/-- Counterexample to C1: a 2048-byte buffer of two 1024-byte periods, a request
the capability descriptor admits (bound `runtime->buffer_size` = 1024), and two
successful completions of 1024 bytes.  The cumulative length is
2048, which modulo the capacity (1024, or 2048 counted in bytes) is 0, but
pointer() is 512 frames: the second completion was dropped, the cursor did not
wrap. -/
theorem pointer_does_not_wrap :
    blue_snowball_pcm_pointer (runtime_configured 2048 1024)
        (stream_run (runtime_configured 2048 1024) (prepared (opened example_device), [])
          (successful [(1024, 0), (1024, 0)])).1 = 512 ∧
    bytes_to_frames (runtime_configured 2048 1024)
        (ring_position (runtime_configured 2048 1024).buffer_size (1024 + 1024)) = 0 ∧
    bytes_to_frames (runtime_configured 2048 1024)
        (ring_position (runtime_configured 2048 1024).dma_bytes (1024 + 1024)) = 0 ∧
    hw_params_supported runtime_opened.hw runtime_opened.periods_integer
      (mono_s16_44100 2048 1024) = true := by
  decide

/-- C2 (amended): the handler delivers exactly one period-elapsed signal for each
successful completion whose payload is copied, whatever its length, and none
otherwise.  So K consecutive writes that fit in the bound deliver K signals in
total, and a single write of m * period_size bytes delivers one signal. -/
theorem one_signal_per_copied_completion (runtime : snd_pcm_runtime)
    (subs : blue_snowball_substream) (cs : List (Nat × Int))
    (hbs : runtime.buffer_size < SIZE_T_MOD)
    (hfit : (cs.map Prod.fst).sum ≤ runtime.buffer_size) :
    signals (stream_run runtime (prepared subs, []) (successful cs)).2 = cs.length ∧
    ∀ (s : blue_snowball_substream) (status : Int) (len : Nat) (r : Int),
      signals (blue_snowball_urb_complete runtime s status len r).2 =
        if status = 0 ∧ (s.buffer_pos + len) % SIZE_T_MOD ≤ runtime.buffer_size then 1
        else 0 := by
  constructor
  · have h := (stream_run_successful runtime cs (prepared subs, []) hbs
      (by simp only [prepared_buffer_pos]; omega)).2
    rw [h]
    simp [signals]
  · intro s status len r
    exact urb_complete_signals runtime s status len r

/-- Witness for C2 (amended): three writes of 1024 bytes into an 88200-byte
buffer deliver three signals. -/
theorem one_signal_per_copied_completion_witness :
    signals (stream_run (runtime_configured 88200 22050) (prepared (opened example_device), [])
      (successful [(1024, 0), (1024, 0), (1024, 0)])).2 = 3 :=
  (one_signal_per_copied_completion (runtime_configured 88200 22050) (opened example_device)
    [(1024, 0), (1024, 0), (1024, 0)] (by decide) (by decide)).1

/-- Counterexample to C2: with a 4096-byte buffer of four 1024-byte periods (a
request the capability descriptor admits), a copied write of 100 bytes at
cursor 0 crosses no period boundary yet delivers one signal, and a single
copied write of 2 * 1024 bytes crosses two boundaries yet delivers one
signal. -/
theorem signal_count_is_not_boundary_count :
    frames_to_bytes (runtime_configured 4096 1024) (runtime_configured 4096 1024).period_size
      = 1024 ∧
    signals (blue_snowball_urb_complete (runtime_configured 4096 1024)
      (prepared (opened example_device)) 0 100 0).2 = 1 ∧
    period_boundaries_crossed 1024 (prepared (opened example_device)).buffer_pos 100 = 0 ∧
    signals (blue_snowball_urb_complete (runtime_configured 4096 1024)
      (prepared (opened example_device)) 0 2048 0).2 = 1 ∧
    copies (blue_snowball_urb_complete (runtime_configured 4096 1024)
      (prepared (opened example_device)) 0 2048 0).2 = 1 ∧
    period_boundaries_crossed 1024 (prepared (opened example_device)).buffer_pos 2048 = 2 ∧
    hw_params_supported runtime_opened.hw runtime_opened.periods_integer
      (mono_s16_44100 4096 1024) = true := by
  decide

/-! ## The cursor bound -/

theorem stop_ne_start : SNDRV_PCM_TRIGGER_STOP ≠ SNDRV_PCM_TRIGGER_START := by decide

theorem stream_step_pos_le (runtime : snd_pcm_runtime)
    (st : blue_snowball_substream × List Call) (op : StreamOp)
    (h : st.1.buffer_pos ≤ runtime.buffer_size) :
    (stream_step runtime st op).1.buffer_pos ≤ runtime.buffer_size := by
  cases op with
  | complete status len r =>
    simp only [stream_step, blue_snowball_urb_complete]
    by_cases hs : status = 0 <;>
      by_cases hf : (st.1.buffer_pos + len) % SIZE_T_MOD ≤ runtime.buffer_size <;>
      simp [hs, hf, h]
  | trigger cmd r =>
    simp only [stream_step, blue_snowball_pcm_trigger]
    by_cases h1 : cmd = SNDRV_PCM_TRIGGER_START <;>
      by_cases h2 : cmd = SNDRV_PCM_TRIGGER_STOP <;>
      by_cases hr : r < 0 <;>
      simp [h1, h2, hr, h, stop_ne_start]

theorem stream_run_pos_le (runtime : snd_pcm_runtime) (ops : List StreamOp)
    (st : blue_snowball_substream × List Call)
    (h : st.1.buffer_pos ≤ runtime.buffer_size) :
    (stream_run runtime st ops).1.buffer_pos ≤ runtime.buffer_size := by
  induction ops generalizing st with
  | nil => simpa [stream_run] using h
  | cons op rest ih =>
    have hstep : stream_run runtime st (op :: rest) =
        stream_run runtime (stream_step runtime st op) rest := by
      simp [stream_run]
    rw [hstep]
    exact ih _ (stream_step_pos_le runtime st op h)

theorem stream_step_copies_inside (runtime : snd_pcm_runtime)
    (st : blue_snowball_substream × List Call) (op : StreamOp)
    (hbs : runtime.buffer_size + U32_MOD ≤ SIZE_T_MOD)
    (hlen : op.actual_length < U32_MOD)
    (hpos : st.1.buffer_pos ≤ runtime.buffer_size)
    (hin : ∀ off len, Call.memcpy off len ∈ st.2 → off + len ≤ runtime.buffer_size) :
    ∀ off len, Call.memcpy off len ∈ (stream_step runtime st op).2 →
      off + len ≤ runtime.buffer_size := by
  intro off len hmem
  cases op with
  | complete status alen r =>
    simp only [StreamOp.actual_length] at hlen
    have hmod : (st.1.buffer_pos + alen) % SIZE_T_MOD = st.1.buffer_pos + alen :=
      Nat.mod_eq_of_lt (by omega)
    simp only [stream_step, blue_snowball_urb_complete, hmod] at hmem
    by_cases hs : status = 0 <;>
      by_cases hf : st.1.buffer_pos + alen ≤ runtime.buffer_size <;>
      by_cases ha : st.1.device.active = 0 <;>
      by_cases hr : r < 0 <;>
      simp [hs, hf, ha, hr] at hmem <;>
      first
        | exact hin off len hmem
        | (rcases hmem with hmem | hmem
           · exact hin off len hmem
           · obtain ⟨h1, h2⟩ := hmem
             subst h1 h2
             exact hf)
  | trigger cmd r =>
    simp only [stream_step, blue_snowball_pcm_trigger] at hmem
    by_cases h1 : cmd = SNDRV_PCM_TRIGGER_START <;>
      by_cases h2 : cmd = SNDRV_PCM_TRIGGER_STOP <;>
      by_cases hr : r < 0 <;>
      simp [h1, h2, hr, stop_ne_start] at hmem <;>
      exact hin off len hmem

theorem stream_run_copies_inside (runtime : snd_pcm_runtime) (ops : List StreamOp)
    (st : blue_snowball_substream × List Call)
    (hbs : runtime.buffer_size + U32_MOD ≤ SIZE_T_MOD)
    (hlen : ∀ op ∈ ops, op.actual_length < U32_MOD)
    (hpos : st.1.buffer_pos ≤ runtime.buffer_size)
    (hin : ∀ off len, Call.memcpy off len ∈ st.2 → off + len ≤ runtime.buffer_size) :
    ∀ off len, Call.memcpy off len ∈ (stream_run runtime st ops).2 →
      off + len ≤ runtime.buffer_size := by
  induction ops generalizing st with
  | nil => simpa [stream_run] using hin
  | cons op rest ih =>
    have hstep : stream_run runtime st (op :: rest) =
        stream_run runtime (stream_step runtime st op) rest := by
      simp [stream_run]
    rw [hstep]
    exact ih _ (fun o ho => hlen o (List.mem_cons_of_mem _ ho))
      (stream_step_pos_le runtime st op hpos)
      (stream_step_copies_inside runtime st op hbs (hlen op (List.mem_cons_self _ _)) hpos hin)

/-- C8: in every state reached from prepare() by any sequence of completions
(any status, any length) and trigger commands, the write cursor is at most
`runtime->buffer_size`; and when lengths are 32-bit values and the bound leaves
room for one below the word size, every copy the handler made ends at or before
`runtime->buffer_size`. -/
theorem write_cursor_within_buffer_size (runtime : snd_pcm_runtime)
    (subs : blue_snowball_substream) (ops : List StreamOp) :
    (stream_run runtime (prepared subs, []) ops).1.buffer_pos ≤ runtime.buffer_size ∧
    (runtime.buffer_size + U32_MOD ≤ SIZE_T_MOD →
      (∀ op ∈ ops, op.actual_length < U32_MOD) →
      ∀ off len, Call.memcpy off len ∈ (stream_run runtime (prepared subs, []) ops).2 →
        off + len ≤ runtime.buffer_size) := by
  have h0 : (prepared subs, ([] : List Call)).1.buffer_pos ≤ runtime.buffer_size := by
    simp [prepared_buffer_pos]
  refine ⟨stream_run_pos_le runtime ops _ h0, ?_⟩
  intro hbs hlen
  exact stream_run_copies_inside runtime ops _ hbs hlen h0 (by simp)

/-! ## End to end -/

theorem sum_replicate_fst (k len : Nat) (r : Int) :
    ((List.replicate k (len, r)).map Prod.fst).sum = k * len := by
  induction k with
  | zero => simp
  | succ k ih =>
    simp only [List.replicate_succ, List.map_cons, List.sum_cons, ih]
    ring

theorem stream_step_urb_buffer (runtime : snd_pcm_runtime)
    (st : blue_snowball_substream × List Call) (op : StreamOp) :
    (stream_step runtime st op).1.urb = st.1.urb ∧
    (stream_step runtime st op).1.buffer = st.1.buffer := by
  cases op with
  | complete status len r =>
    simp only [stream_step]
    exact (urb_complete_device runtime st.1 status len r).2
  | trigger cmd r =>
    simp only [stream_step, blue_snowball_pcm_trigger]
    by_cases h1 : cmd = SNDRV_PCM_TRIGGER_START <;>
      by_cases h2 : cmd = SNDRV_PCM_TRIGGER_STOP <;>
      by_cases hr : r < 0 <;>
      simp [h1, h2, hr, stop_ne_start]

theorem stream_run_urb_buffer (runtime : snd_pcm_runtime) (ops : List StreamOp)
    (st : blue_snowball_substream × List Call) :
    (stream_run runtime st ops).1.urb = st.1.urb ∧
    (stream_run runtime st ops).1.buffer = st.1.buffer := by
  induction ops generalizing st with
  | nil => simp [stream_run]
  | cons op rest ih =>
    have hstep : stream_run runtime st (op :: rest) =
        stream_run runtime (stream_step runtime st op) rest := by
      simp [stream_run]
    rw [hstep, (ih _).1, (ih _).2]
    exact stream_step_urb_buffer runtime st op

theorem capture_session_unfold (device : blue_snowball_device) (p : snd_pcm_hw_params)
    (len k : Nat) :
    capture_session device p len k =
      some
        { rets :=
            [0, (hw_params_commit runtime_opened p 0).1,
             (blue_snowball_pcm_prepare (opened device) true true).1,
             (blue_snowball_pcm_trigger (prepared (opened device)) SNDRV_PCM_TRIGGER_START 0).1,
             (blue_snowball_pcm_trigger
               (stream_run (hw_params_commit runtime_opened p 0).2
                 ((blue_snowball_pcm_trigger (prepared (opened device))
                    SNDRV_PCM_TRIGGER_START 0).2.1, [])
                 (successful (List.replicate k (len, 0)))).1 SNDRV_PCM_TRIGGER_STOP 0).1,
             0],
          pointer :=
            blue_snowball_pcm_pointer (hw_params_commit runtime_opened p 0).2
              (stream_run (hw_params_commit runtime_opened p 0).2
                ((blue_snowball_pcm_trigger (prepared (opened device))
                   SNDRV_PCM_TRIGGER_START 0).2.1, [])
                (successful (List.replicate k (len, 0)))).1,
          signals :=
            signals
              (stream_run (hw_params_commit runtime_opened p 0).2
                ((blue_snowball_pcm_trigger (prepared (opened device))
                   SNDRV_PCM_TRIGGER_START 0).2.1, [])
                (successful (List.replicate k (len, 0)))).2,
          stop_calls :=
            (blue_snowball_pcm_trigger
               (stream_run (hw_params_commit runtime_opened p 0).2
                 ((blue_snowball_pcm_trigger (prepared (opened device))
                    SNDRV_PCM_TRIGGER_START 0).2.1, [])
                 (successful (List.replicate k (len, 0)))).1 SNDRV_PCM_TRIGGER_STOP 0).2.2,
          close_calls :=
            (blue_snowball_pcm_close
              (some (blue_snowball_pcm_trigger
                 (stream_run (hw_params_commit runtime_opened p 0).2
                   ((blue_snowball_pcm_trigger (prepared (opened device))
                      SNDRV_PCM_TRIGGER_START 0).2.1, [])
                   (successful (List.replicate k (len, 0)))).1
                 SNDRV_PCM_TRIGGER_STOP 0).2.1)).2 } := by
  rfl

theorem trigger_stop_eq (subs : blue_snowball_substream) (r : Int) :
    blue_snowball_pcm_trigger subs SNDRV_PCM_TRIGGER_STOP r =
      (0, { subs with device := { subs.device with active := 0 } }, [Call.usb_kill_urb]) := by
  simp [blue_snowball_pcm_trigger, stop_ne_start]

theorem capture_session_within_bound (device : blue_snowball_device) (k : Nat)
    (hk : k * 1024 ≤ 44100) :
    capture_session device (mono_s16_44100 88200 1024) 1024 k =
      some { rets := [0, 0, 0, 0, 0, 0],
             pointer := k * 512,
             signals := k,
             stop_calls := [Call.usb_kill_urb],
             close_calls := [Call.usb_kill_urb, Call.usb_free_urb,
                             Call.kfree_buffer (some 1024), Call.kfree_subs] } := by
  have hrt : (hw_params_commit runtime_opened (mono_s16_44100 88200 1024) 0).2.buffer_size
      = 44100 := by decide
  have hfb : (hw_params_commit runtime_opened (mono_s16_44100 88200 1024) 0).2.frame_bits
      = 16 := by decide
  have hret : (hw_params_commit runtime_opened (mono_s16_44100 88200 1024) 0).1 = 0 := by
    decide
  have hstart : (blue_snowball_pcm_trigger (prepared (opened device))
      SNDRV_PCM_TRIGGER_START 0).2.1.buffer_pos = 0 := by
    simp [blue_snowball_pcm_trigger, prepared, blue_snowball_pcm_prepare]
  have hrun := stream_run_successful
    (hw_params_commit runtime_opened (mono_s16_44100 88200 1024) 0).2
    (List.replicate k (1024, 0))
    ((blue_snowball_pcm_trigger (prepared (opened device)) SNDRV_PCM_TRIGGER_START 0).2.1, [])
    (by rw [hrt]; decide)
    (by rw [hrt, sum_replicate_fst, hstart]; omega)
  have hub := stream_run_urb_buffer
    (hw_params_commit runtime_opened (mono_s16_44100 88200 1024) 0).2
    (successful (List.replicate k (1024, 0)))
    ((blue_snowball_pcm_trigger (prepared (opened device)) SNDRV_PCM_TRIGGER_START 0).2.1, [])
  rw [sum_replicate_fst, hstart] at hrun
  have hlimit : SSIZE_T_LIMIT = 9223372036854775808 := rfl
  have hptr : bytes_to_frames
      (hw_params_commit runtime_opened (mono_s16_44100 88200 1024) 0).2 (0 + k * 1024)
      = k * 512 := by
    rw [bytes_to_frames_no_overflow _ _ (by omega), hfb]
    omega
  rw [capture_session_unfold]
  simp only [trigger_stop_eq, blue_snowball_pcm_close, blue_snowball_pcm_pointer,
    hrun.1, hrun.2, hub.1, hub.2, hptr, hret]
  simp [blue_snowball_pcm_trigger, prepared, blue_snowball_pcm_prepare, signals]

set_option maxRecDepth 100000 in
/-- C7: the end-to-end session of the claim (88200-byte buffer, completions of
1024 bytes) evaluated at k = 44, where 44 * 1024 = 45056 bytes fit in the
88200-byte buffer: pointer() is 22016 frames, not 44 * 512 = 22528, and 43
signals were delivered, not 44.  The outcome is the same with a period of 22050
bytes, a request the capability descriptor admits.  At k = 3 pointer() is 1536
frames with 3 signals, and stop then close cancel and free the request and its
buffer. -/
theorem capture_session_stalls_at_half_buffer :
    capture_session example_device (mono_s16_44100 88200 1024) 1024 44 =
      some { rets := [0, 0, 0, 0, 0, 0],
             pointer := 22016,
             signals := 43,
             stop_calls := [Call.usb_kill_urb],
             close_calls := [Call.usb_kill_urb, Call.usb_free_urb,
                             Call.kfree_buffer (some 1024), Call.kfree_subs] } ∧
    44 * 1024 ≤ (hw_params_commit runtime_opened (mono_s16_44100 88200 1024) 0).2.dma_bytes ∧
    (hw_params_commit runtime_opened (mono_s16_44100 88200 1024) 0).2.buffer_size = 44100 ∧
    hw_params_supported runtime_opened.hw runtime_opened.periods_integer
      (mono_s16_44100 88200 22050) = true ∧
    capture_session example_device (mono_s16_44100 88200 22050) 1024 44 =
      some { rets := [0, 0, 0, 0, 0, 0],
             pointer := 22016,
             signals := 43,
             stop_calls := [Call.usb_kill_urb],
             close_calls := [Call.usb_kill_urb, Call.usb_free_urb,
                             Call.kfree_buffer (some 1024), Call.kfree_subs] } ∧
    capture_session example_device (mono_s16_44100 88200 1024) 1024 3 =
      some { rets := [0, 0, 0, 0, 0, 0],
             pointer := 1536,
             signals := 3,
             stop_calls := [Call.usb_kill_urb],
             close_calls := [Call.usb_kill_urb, Call.usb_free_urb,
                             Call.kfree_buffer (some 1024), Call.kfree_subs] } := by
  refine ⟨by decide, by decide, by decide, by decide, by decide, by decide⟩

/-! ## Configure -/

theorem s16_le_bit_only (f : Nat) : 4 / 2 ^ f % 2 = 1 ↔ f = 2 := by
  constructor
  · intro h
    by_contra hne
    have hcases : f = 0 ∨ f = 1 ∨ 3 ≤ f := by omega
    rcases hcases with h0 | h1 | h3
    · subst h0; simp at h
    · subst h1; simp at h
    · have hpow : 2 ^ 3 ≤ 2 ^ f := Nat.pow_le_pow_right (by decide) h3
      have hzero : 4 / 2 ^ f = 0 := Nat.div_eq_of_lt (by omega)
      rw [hzero] at h
      simp at h
  · intro h
    subst h
    decide

/-- C10 (amended): configure (the driver's hw_params) does not validate the
request.  For every request, whatever its format, channel count or rate, it
returns what the allocation of the requested buffer bytes returned: it fails
exactly when the allocation fails, leaving the runtime as it was, and otherwise
records the allocated size.  The single supported format (16-bit little-endian
only, 1 channel, 44100 Hz) is declared in the capability descriptor that open()
installs in the runtime.  configure(mono/16-bit/44100, buffer 88200, period
1024) succeeds when the allocation does. -/
theorem configure_allocates_without_validation (runtime : snd_pcm_runtime)
    (p : snd_pcm_hw_params) (malloc_ret : Int) :
    (blue_snowball_pcm_hw_params runtime p malloc_ret).1 = malloc_ret ∧
    (blue_snowball_pcm_hw_params runtime p malloc_ret).2 =
      (if malloc_ret < 0 then runtime else { runtime with dma_bytes := p.buffer_bytes }) ∧
    (∀ (device : blue_snowball_device) (rt : snd_pcm_runtime) (c : Int),
      (blue_snowball_pcm_open device rt true c).2.1.hw = blue_snowball_pcm_hw) ∧
    (∀ f : Nat, blue_snowball_pcm_hw.formats / 2 ^ f % 2 = 1 ↔ f = SNDRV_PCM_FORMAT_S16_LE) ∧
    blue_snowball_pcm_hw.channels_min = 1 ∧ blue_snowball_pcm_hw.channels_max = 1 ∧
    blue_snowball_pcm_hw.rate_min = 44100 ∧ blue_snowball_pcm_hw.rate_max = 44100 ∧
    blue_snowball_pcm_hw_params runtime (mono_s16_44100 88200 1024) 0 =
      (0, { runtime with dma_bytes := 88200 }) := by
  refine ⟨?_, ?_, ?_, ?_, rfl, rfl, rfl, rfl, ?_⟩
  · unfold blue_snowball_pcm_hw_params
    by_cases h : malloc_ret < 0 <;> simp [h]
  · unfold blue_snowball_pcm_hw_params
    by_cases h : malloc_ret < 0 <;> simp [h]
  · intro device rt c
    unfold blue_snowball_pcm_open
    by_cases h : c < 0 <;> simp [h]
  · intro f
    exact s16_le_bit_only f
  · simp [blue_snowball_pcm_hw_params, mono_s16_44100]

/-- Counterexample to C10: a stereo request (2 channels, 16-bit little-endian,
44100 Hz, buffer 88200, period 1024) on the opened session does not fail:
configure returns 0 and the session is configured with the 88200 bytes
allocated. -/
theorem configure_accepts_stereo :
    ({ mono_s16_44100 88200 1024 with channels := 2 } : snd_pcm_hw_params).channels
      ≠ BLUE_SNOWBALL_CHANNELS ∧
    (blue_snowball_pcm_hw_params runtime_opened
      { mono_s16_44100 88200 1024 with channels := 2 } 0).1 = 0 ∧
    (blue_snowball_pcm_hw_params runtime_opened
      { mono_s16_44100 88200 1024 with channels := 2 } 0).2.dma_bytes = 88200 ∧
    runtime_opened.dma_bytes = 0 := by
  decide

end BlueSnowball
